import Mathlib

/-!
Verification development for the ridesharing matching engine.

The definitions below are shallow embeddings of the JavaScript source:
  * `tryAcceptRide`, `setRidePending`            from src/services/matchService.js
  * the socket handlers (`createRideRequest`, `riderCancelRide`,
    `driverAcceptRide`, `broadcastRideStep`, `socketsRadii`)
                                                 from src/sockets/index.js
  * the ride service (`handleDriverResponse`, `cancelRide`,
    `handleRideTimeout`, `searchRadii`)          from src/src/services/rideService.js
  * `findNearbyDrivers`                          from src/src/services/geoService.js
  * the event validations                        from the SocketController
                                                 (src/unnamed/part_002)

Redis string values are modelled as `String`, key spaces as functions
`String -> Option _`, numeric quantities as `Nat` or `Rat`, and the
sequential (per-request serialized) execution of each handler as a pure
state transformer.
-/

namespace RideShare

/-- Pointwise update of a keyed store, modelling a Redis SET / HSET or a
JavaScript Map.set on one key. -/
def upd {α : Type} (f : String → α) (k : String) (v : α) : String → α :=
  fun x => if x = k then v else f x

/-! ## matchService.js

The Redis value at key rides:status:<rideId> is absent (`none`),
the sentinel string "pending" (written by `setRidePending`), or the id of
the driver that won the ride. -/

/-- The Lua script of `tryAcceptRide` (src/services/matchService.js lines
5-18): if the status key is absent or holds the string "pending", set it to
the driver id and report 1 (won); otherwise leave it and report 0 (lost).
Returns (won?, new value of the status key). -/
def tryAcceptRide (driverId : String) (st : Option String) : Bool × Option String :=
  match st with
  | none => (true, some driverId)
  | some s => if s = "pending" then (true, some driverId) else (false, some s)

/-- Run a sequence of accept attempts against one status key, threading the
key value; returns the list of results and the final value. -/
def runAccepts : List String → Option String → List Bool × Option String
  | [], st => ([], st)
  | d :: ds, st =>
    let r := tryAcceptRide d st
    let rest := runAccepts ds r.2
    (r.1 :: rest.1, rest.2)

/-- The trace of values taken by the status key along a sequence of accept
attempts (initial value included). -/
def acceptStates : List String → Option String → List (Option String)
  | [], st => [st]
  | d :: ds, st => st :: acceptStates ds (tryAcceptRide d st).2

/-! ## src/sockets/index.js -/

/-- The in-memory and Redis state touched by the socket layer:
`rideStatus` is the Redis rides:status keyspace shared with matchService,
the other fields are the module-level Maps of src/sockets/index.js. -/
structure SockState where
  rideStatus : String → Option String
  driverActiveRide : String → Option String
  rideToRider : String → Bool
  broadcastSet : String → List String
  hasTimer : String → Bool

/-- `setRidePending` (src/services/matchService.js lines 20-23) lifted to the
socket-layer state: writes the sentinel "pending" under the status key. -/
def setRidePending (s : SockState) (rideId : String) : SockState :=
  { s with rideStatus := upd s.rideStatus rideId (some "pending") }

/-- `createRideRequest` (src/controllers/riderController.js) as invoked from
the rider:requestRide handler: marks the ride pending and registers the
rider connection. -/
def createRideRequest (s : SockState) (rideId : String) : SockState :=
  let s1 := setRidePending s rideId
  { s1 with rideToRider := upd s1.rideToRider rideId true }

/-- The rider:cancelRide handler (src/sockets/index.js lines 104-119): clears
the search timer, emits cancellations to the broadcast set, and deletes the
in-memory maps. It never writes the Redis status key. -/
def riderCancelRide (s : SockState) (rideId : String) : SockState :=
  { s with hasTimer := upd s.hasTimer rideId false,
           broadcastSet := upd s.broadcastSet rideId [],
           rideToRider := upd s.rideToRider rideId false }

/-- The driver:acceptRide handler (src/sockets/index.js lines 122-153):
calls `tryAcceptRide` and, on a win, binds the driver (unconditionally,
overwriting any existing binding) and tears down the request bookkeeping. -/
def driverAcceptRide (s : SockState) (driverId rideId : String) :
    Bool × SockState :=
  match tryAcceptRide driverId (s.rideStatus rideId) with
  | (true, newSt) =>
    (true,
      { s with rideStatus := upd s.rideStatus rideId newSt,
               driverActiveRide := upd s.driverActiveRide driverId (some rideId),
               rideToRider := upd s.rideToRider rideId false,
               hasTimer := upd s.hasTimer rideId false,
               broadcastSet := upd s.broadcastSet rideId [] })
  | (false, _) => (false, s)

/-- A socket-layer state with no rides and no drivers. -/
def emptySock : SockState :=
  { rideStatus := fun _ => none,
    driverActiveRide := fun _ => none,
    rideToRider := fun _ => false,
    broadcastSet := fun _ => [],
    hasTimer := fun _ => false }

/-- A socket-layer state in which driver dave already won ride r1 and holds
the active-ride binding for it, while ride r2 is pending. -/
def sockBusy : SockState :=
  { rideStatus := upd (upd (fun _ => none) "r1" (some "dave")) "r2" (some "pending"),
    driverActiveRide := upd (fun _ => none) "dave" (some "r1"),
    rideToRider := fun _ => false,
    broadcastSet := fun _ => [],
    hasTimer := fun _ => false }

/-! ### Radius sequences -/

/-- SEARCH_INITIAL_RADIUS from src/utils/constants.js. -/
def SEARCH_INITIAL_RADIUS : Nat := 5

/-- SEARCH_RADIUS_INCREMENT from src/utils/constants.js. -/
def SEARCH_RADIUS_INCREMENT : Nat := 3

/-- MAX_RADIUS from src/utils/constants.js. -/
def MAX_RADIUS : Nat := 15

/-- The sequence of radii at which `broadcastRide` runs in the recursive
`startTimer` loop of src/sockets/index.js lines 76-98: the first broadcast
happens at the initial radius; each timer firing stops if the radius has
reached `maxR` and otherwise increments the radius BEFORE broadcasting
again. `fuel` bounds the number of timer firings. -/
def socketsRadii (inc maxR : Nat) : Nat → Nat → List Nat
  | 0, _ => []
  | fuel + 1, r => r :: (if maxR ≤ r then [] else socketsRadii inc maxR fuel (r + inc))

/-- The sequence of radii attempted by `findDriversWithExpansion`
(src/src/services/rideService.js lines 423-488): the loop runs while the
radius is at most `maxR` (with `fuel` = maxAttempts) and grows the radius by
`min (r + step) maxR`, leaving it unchanged on the last attempt. -/
def searchRadii (step maxR : Nat) : Nat → Nat → List Nat
  | 0, _ => []
  | fuel + 1, r =>
    if r ≤ maxR then
      r :: searchRadii step maxR fuel (if r < maxR then min (r + step) maxR else r)
    else []

/-! ## src/src/services/rideService.js

The ride request records of the canonical ride service, the Redis hashes
RIDE_REQUESTS, DRIVER_ACTIVE_RIDES and USER_ACTIVE_REQUESTS, and the
per-request serialized handlers (the code serializes handleDriverResponse
behind a processing lock and a distributed lock, so each handler runs as one
atomic step here). -/

/-- The status strings a stored ride request can carry. -/
inductive RideStatus where
  | searching
  | accepted
  | all_rejected
  | no_drivers_found
  | timeout
  | cancelled
  | cancelled_by_user
  | completed
deriving DecidableEq

/-- One entry of the responses map: { response, timestamp } (the
driverLocation field is not read by any handler modelled here). -/
structure RespEntry where
  response : String
  timestamp : Nat
deriving DecidableEq

/-- A ride request record as created by findAndBroadcastToDrivers
(src/src/services/rideService.js lines 358-377); address, fare and
searchAttempts fields are omitted because no modelled handler branches on
them. -/
structure RideRequest where
  userId : String
  status : RideStatus
  radius : Nat
  notifiedDrivers : List String
  responses : List (String × RespEntry)
  acceptedBy : Option String
  version : Nat
deriving DecidableEq

/-- The three Redis hashes the ride service mutates. -/
structure RSState where
  rideRequests : String → Option RideRequest
  driverActiveRides : String → Option String
  userActiveRequests : String → Option String

/-- Insert-or-replace on the responses object, preserving key order as a
JavaScript object assignment does. -/
def upsertResponse : List (String × RespEntry) → String → RespEntry →
    List (String × RespEntry)
  | [], d, r => [(d, r)]
  | (k, v) :: rest, d, r =>
    if k = d then (d, r) :: rest else (k, v) :: upsertResponse rest d r

/-- getDriverActiveRide (src/src/services/rideService.js lines 299-332):
returns the ride id the driver is validly bound to, or cleans up a stale
binding and returns none. -/
def getDriverActiveRide (s : RSState) (d : String) : Option String × RSState :=
  match s.driverActiveRides d with
  | none => (none, s)
  | some rid =>
    match s.rideRequests rid with
    | none => (none, { s with driverActiveRides := upd s.driverActiveRides d none })
    | some ride =>
      if ride.status = RideStatus.accepted ∧ ride.acceptedBy = some d then
        (some rid, s)
      else
        (none, { s with driverActiveRides := upd s.driverActiveRides d none })

/-- The result statuses handleDriverResponse reports to the caller. -/
inductive RespStatus where
  | driver_busy
  | request_not_found
  | already_accepted
  | request_closed
  | accepted
  | rejected
deriving DecidableEq

/-- The body of handleDriverResponse after the busy-driver pre-check
(src/src/services/rideService.js lines 722-904): status checks, response
recording, the accept commit (ride update plus driver binding in one MULTI;
in the serialized model the MULTI pre-read always returns the request just
read, so the race-rollback branch of lines 805-825 is unreachable), and the
reject path with the all_rejected transition. -/
def handleDriverResponseCore (s : RSState) (requestId driverId : String)
    (isAccept : Bool) (t : Nat) : RespStatus × RSState :=
  match s.rideRequests requestId with
  | none => (RespStatus.request_not_found, s)
  | some ride =>
    if ride.status = RideStatus.accepted then (RespStatus.already_accepted, s)
    else if ride.status ≠ RideStatus.searching then (RespStatus.request_closed, s)
    else
      let entry : RespEntry :=
        { response := if isAccept then "accept" else "reject", timestamp := t }
      let responses1 := upsertResponse ride.responses driverId entry
      if isAccept then
        let ride1 := { ride with
          status := RideStatus.accepted,
          acceptedBy := some driverId,
          responses := responses1,
          version := ride.version + 1 }
        (RespStatus.accepted,
          { s with
            rideRequests := upd s.rideRequests requestId (some ride1),
            driverActiveRides := upd s.driverActiveRides driverId (some requestId) })
      else
        let ride1 := { ride with responses := responses1, version := ride.version + 1 }
        let s2 := { s with rideRequests := upd s.rideRequests requestId (some ride1) }
        if responses1.length ≥ ride.notifiedDrivers.length ∧
            (responses1.filter (fun p => p.2.response == "accept")).length = 0 then
          let ride2 := { ride1 with
            status := RideStatus.all_rejected, version := ride1.version + 1 }
          (RespStatus.rejected,
            { s2 with
              rideRequests := upd s2.rideRequests requestId (some ride2),
              userActiveRequests := upd s2.userActiveRequests ride.userId none })
        else (RespStatus.rejected, s2)

/-- handleDriverResponse (src/src/services/rideService.js lines 660-924):
on an accept, first reject busy drivers via getDriverActiveRide (lines
666-688), then run the locked body. -/
def handleDriverResponse (s : RSState) (requestId driverId : String)
    (isAccept : Bool) (t : Nat) : RespStatus × RSState :=
  if isAccept then
    match getDriverActiveRide s driverId with
    | (some _, s1) => (RespStatus.driver_busy, s1)
    | (none, s1) => handleDriverResponseCore s1 requestId driverId isAccept t
  else handleDriverResponseCore s requestId driverId isAccept t

/-- cancelRide (src/src/services/rideService.js lines 967-1009): if the
request exists, unconditionally overwrite its status with cancelled, free
the user mapping, and free the accepted driver if one is bound. -/
def cancelRide (s : RSState) (requestId : String) : Bool × RSState :=
  match s.rideRequests requestId with
  | none => (false, s)
  | some ride =>
    let ride1 := { ride with status := RideStatus.cancelled }
    (true,
      { s with
        rideRequests := upd s.rideRequests requestId (some ride1),
        userActiveRequests := upd s.userActiveRequests ride.userId none,
        driverActiveRides :=
          match ride.acceptedBy with
          | some d => upd s.driverActiveRides d none
          | none => s.driverActiveRides })

/-- handleRideTimeout (src/src/services/rideService.js lines 1093-1133):
a no-op unless the request is still searching, in which case the status
becomes timeout and the user mapping is freed. -/
def handleRideTimeout (s : RSState) (requestId : String) : RSState :=
  match s.rideRequests requestId with
  | none => s
  | some ride =>
    if ride.status ≠ RideStatus.searching then s
    else
      let ride1 := { ride with status := RideStatus.timeout, version := ride.version + 1 }
      { s with
        rideRequests := upd s.rideRequests requestId (some ride1),
        userActiveRequests := upd s.userActiveRequests ride.userId none }

/-- The observable state of one request: its status and its responses map
projected to (driverId, response) pairs. -/
def observable (s : RSState) (requestId : String) :
    Option (RideStatus × List (String × String)) :=
  (s.rideRequests requestId).map fun r =>
    (r.status, r.responses.map fun p => (p.1, p.2.response))

/-- True on every status except searching: the statuses from which the code
never resumes matching. -/
def isTerminal : RideStatus → Bool
  | RideStatus.searching => false
  | _ => true

/-- A record for ride r1 already accepted by driver dave. -/
def rideR1 : RideRequest :=
  { userId := "u1", status := RideStatus.accepted, radius := 3,
    notifiedDrivers := ["dave"],
    responses := [("dave", { response := "accept", timestamp := 1 })],
    acceptedBy := some "dave", version := 3 }

/-- A record for a ride cancelled by its rider. -/
def rideR2 : RideRequest :=
  { userId := "u2", status := RideStatus.cancelled_by_user, radius := 5,
    notifiedDrivers := ["erin", "frank"],
    responses := [], acceptedBy := none, version := 2 }

/-- A ride-service state holding rideR1 under r1 with dave validly bound,
and rideR2 under r9. -/
def rsBusy : RSState :=
  { rideRequests := upd (upd (fun _ => none) "r1" (some rideR1)) "r9" (some rideR2),
    driverActiveRides := upd (fun _ => none) "dave" (some "r1"),
    userActiveRequests := upd (fun _ => none) "u1" (some "r1") }

/-! ## src/src/services/geoService.js -/

/-- One element of the Redis GEORADIUS ... WITHDIST WITHCOORD ASC reply. -/
structure GeoEntry where
  driverId : String
  distance : ℚ
  lat : ℚ
  lng : ℚ
deriving DecidableEq

/-- The fields of the drivers:data hash entry read by findNearbyDrivers. -/
structure DriverData where
  vehicleType : String
  status : String
  rating : ℚ
deriving DecidableEq

/-- One element of the candidate list findNearbyDrivers builds. -/
structure Candidate where
  driverId : String
  distance : ℚ
  latitude : ℚ
  longitude : ℚ
  vehicleType : String
  rating : ℚ
deriving DecidableEq

/-- The vehicle-type filter of findNearbyDrivers line 95-100: a driver is
skipped when a vehicle type was requested, it is not "any", and the driver
type differs (a missing filter is `none`). -/
def vehicleMismatch (vt : Option String) (dvt : String) : Bool :=
  match vt with
  | none => false
  | some v => decide (v ≠ "any") && decide (dvt ≠ v)

/-- The per-entry body of the findNearbyDrivers loop
(src/src/services/geoService.js lines 81-123): drop entries without driver
data, with a mismatched vehicle type, or with a status other than
available; otherwise build the candidate. -/
def eligibleCandidate (driverData : String → Option DriverData)
    (vt : Option String) (e : GeoEntry) : Option Candidate :=
  match driverData e.driverId with
  | none => none
  | some data =>
    if vehicleMismatch vt data.vehicleType then none
    else if data.status ≠ "available" then none
    else some { driverId := e.driverId, distance := e.distance,
                latitude := e.lat, longitude := e.lng,
                vehicleType := data.vehicleType, rating := data.rating }

/-- The comparator of findNearbyDrivers lines 126-132: when two distances
differ by less than 0.5 km the higher rating wins, otherwise the smaller
distance wins. -/
def cmpDrivers (a b : Candidate) : ℚ :=
  if |a.distance - b.distance| < 1 / 2 then b.rating - a.rating
  else a.distance - b.distance

/-- Stable insertion step of sorting by `cmpDrivers`. -/
def insertByCmp (x : Candidate) : List Candidate → List Candidate
  | [] => [x]
  | y :: ys => if cmpDrivers x y ≤ 0 then x :: y :: ys else y :: insertByCmp x ys

/-- Array.prototype.sort with the `cmpDrivers` comparator, modelled as
insertion sort. -/
def sortByCmp : List Candidate → List Candidate
  | [] => []
  | x :: xs => insertByCmp x (sortByCmp xs)

/-- findNearbyDrivers (src/src/services/geoService.js lines 58-142) on the
raw geo reply and the drivers:data hash. -/
def findNearbyDrivers (results : List GeoEntry)
    (driverData : String → Option DriverData) (vt : Option String) :
    List Candidate :=
  sortByCmp (results.filterMap (eligibleCandidate driverData vt))

/-- Geo entry for a driver 0.6 km away. -/
def entryNear : GeoEntry := { driverId := "dA", distance := 3 / 5, lat := 0, lng := 0 }

/-- Geo entry for a driver 1.0 km away. -/
def entryFar : GeoEntry := { driverId := "dB", distance := 1, lat := 0, lng := 0 }

/-- Driver data: both available cars, the farther driver with the higher
rating. -/
def twoCarsData : String → Option DriverData :=
  upd (upd (fun _ => none) "dA"
        (some { vehicleType := "car", status := "available", rating := 4 }))
      "dB" (some { vehicleType := "car", status := "available", rating := 5 })

/-! ## broadcastRide (src/sockets/index.js lines 51-72) -/

/-- Set.add of a JavaScript Set modelled on an insertion-ordered duplicate
free list. -/
def setAdd (l : List String) (d : String) : List String :=
  if d ∈ l then l else l ++ [d]

/-- Adding every element of a list to a JavaScript Set. -/
def setAddAll (l : List String) (ds : List String) : List String :=
  ds.foldl setAdd l

/-- The per-request mutable sets the broadcastRide closure owns:
foundDrivers (the drivers already offered this ride) and the
rideDriverBroadcastMap entry. -/
structure BroadcastState where
  foundDrivers : List String
  currentSet : List String
deriving DecidableEq

/-- The environment one broadcastRide call observes: the geo query reply,
the driverActiveRide busy test, and the connected-socket test. -/
structure BroadcastIn where
  nearby : List String
  busy : String → Bool
  connected : String → Bool

/-- One call of broadcastRide (src/sockets/index.js lines 51-72): return
early on an empty geo reply; otherwise filter busy drivers, keep only
drivers not yet found, add the new ones to foundDrivers and every nearby
driver to the broadcast set, and emit the offer to each connected new
driver. Returns the list of drivers the offer was emitted to. -/
def broadcastRideStep (inp : BroadcastIn) (bs : BroadcastState) :
    List String × BroadcastState :=
  if inp.nearby.isEmpty then ([], bs)
  else
    let eligibleDrivers := inp.nearby.filter (fun d => ! inp.busy d)
    let newDrivers := eligibleDrivers.filter (fun d => ! decide (d ∈ bs.foundDrivers))
    let found1 := setAddAll bs.foundDrivers newDrivers
    let set1 := setAddAll bs.currentSet inp.nearby
    (newDrivers.filter inp.connected,
      { foundDrivers := found1, currentSet := set1 })

/-- A sequence of broadcastRide calls for one request (the initial call plus
the calls made by the expansion timer), collecting each call's emissions. -/
def runBroadcasts : List BroadcastIn → BroadcastState →
    List (List String) × BroadcastState
  | [], bs => ([], bs)
  | i :: is, bs =>
    let r := broadcastRideStep i bs
    let rest := runBroadcasts is r.2
    (r.1 :: rest.1, rest.2)

/-- The trace of broadcast states along a sequence of broadcastRide calls
(initial state included). -/
def broadcastStates : List BroadcastIn → BroadcastState → List BroadcastState
  | [], bs => [bs]
  | i :: is, bs => bs :: broadcastStates is (broadcastRideStep i bs).2

/-- broadcastToFoundDrivers (src/src/services/rideService.js lines 563-655)
restricted to its effect on the request record: it assigns the ids of the
drivers to notify to notifiedDrivers and bumps the version. -/
def broadcastToFoundDrivers (ride : RideRequest) (ids : List String) :
    RideRequest :=
  { ride with notifiedDrivers := ids, version := ride.version + 1 }

/-! ## Event validations of the SocketController (src/unnamed/part_002) -/

/-- JavaScript truthiness of a number (NaN aside): zero is falsy. -/
def truthyNum (q : ℚ) : Bool := decide (q ≠ 0)

/-- JavaScript truthiness of a string: the empty string is falsy. -/
def truthyStr (s : String) : Bool := decide (s ≠ "")

/-- Outcome of the validation prefixes of the socket event handlers. -/
inductive ValidationResult where
  | missing_fields
  | invalid_coordinates
  | ok
deriving DecidableEq

/-- The validation prefix of handleDriverRegister (src/unnamed/part_002
lines 74-93): a falsy driverId, latitude, longitude or vehicleType yields
the missing-required-fields error; out-of-range coordinates yield the
invalid-coordinates error. -/
def handleDriverRegisterCheck (driverId : String) (lat lng : ℚ)
    (vehicleType : String) : ValidationResult :=
  if !truthyStr driverId || !truthyNum lat || !truthyNum lng || !truthyStr vehicleType then
    ValidationResult.missing_fields
  else if lat < -90 ∨ lat > 90 ∨ lng < -180 ∨ lng > 180 then
    ValidationResult.invalid_coordinates
  else ValidationResult.ok

/-- The validation prefix of handleDriverLocationUpdate (src/unnamed/part_002
lines 152-158). -/
def handleDriverLocationUpdateCheck (driverId : String) (lat lng : ℚ) :
    ValidationResult :=
  if !truthyStr driverId || !truthyNum lat || !truthyNum lng then
    ValidationResult.missing_fields
  else ValidationResult.ok

/-- The validation prefix of handleFindNearbyDrivers (src/unnamed/part_002
lines 347-365). -/
def handleFindNearbyDriversCheck (userId : String) (lat lng : ℚ) :
    ValidationResult :=
  if !truthyStr userId || !truthyNum lat || !truthyNum lng then
    ValidationResult.missing_fields
  else if lat < -90 ∨ lat > 90 ∨ lng < -180 ∨ lng > 180 then
    ValidationResult.invalid_coordinates
  else ValidationResult.ok

/-! ## Helper lemmas -/

@[simp] theorem upd_same {α : Type} (f : String → α) (k : String) (v : α) :
    upd f k v k = v := by
  simp [upd]

@[simp] theorem upd_other {α : Type} (f : String → α) (k x : String) (v : α)
    (h : x ≠ k) : upd f k v x = f x := by
  simp [upd, h]

theorem tryAcceptRide_closed {v : String} (d : String) (hv : v ≠ "pending") :
    tryAcceptRide d (some v) = (false, some v) := by
  simp [tryAcceptRide, hv]

theorem runAccepts_closed {v : String} (ds : List String) (hv : v ≠ "pending") :
    runAccepts ds (some v) = (List.replicate ds.length false, some v) := by
  induction ds with
  | nil => rfl
  | cons d ds ih =>
    simp [runAccepts, tryAcceptRide_closed d hv, ih, List.replicate]

theorem acceptStates_closed {v : String} (ds : List String) (hv : v ≠ "pending") :
    acceptStates ds (some v) = List.replicate (ds.length + 1) (some v) := by
  induction ds with
  | nil => rfl
  | cons d ds ih =>
    simp [acceptStates, tryAcceptRide_closed d hv, ih, List.replicate]

theorem tryAcceptRide_open (d : String) {s0 : Option String}
    (h0 : s0 = none ∨ s0 = some "pending") :
    tryAcceptRide d s0 = (true, some d) := by
  rcases h0 with h | h <;> subst h <;> simp [tryAcceptRide]

/-! ## Claims C1 and C9 (matchService acceptance) -/

/-- C1 counterexample: a driver whose id is the literal string "pending" can
win a pending ride, after which a second distinct driver also wins, so two
accept attempts on the same request both return won. -/
theorem C1_counterexample :
    "pending" ≠ "alice" ∧
    ¬ (runAccepts ["pending", "alice"] (some "pending")).1.count true ≤ 1 := by
  decide

/-- C1 (amended): over any sequence of accept attempts none of which uses
the reserved driver id "pending", starting from an absent or pending status
key, at most one attempt returns won, and at most one driver id is ever the
value of the status key (holds acceptedBy). -/
theorem C1_single_winner_amended (ds : List String) (s0 : Option String)
    (hds : ∀ d ∈ ds, d ≠ "pending")
    (h0 : s0 = none ∨ s0 = some "pending") :
    (runAccepts ds s0).1.count true ≤ 1 ∧
    ∀ u v : String, some u ∈ acceptStates ds s0 → some v ∈ acceptStates ds s0 →
      u ≠ "pending" → v ≠ "pending" → u = v := by
  cases ds with
  | nil =>
    constructor
    · rcases h0 with h | h <;> subst h <;> simp [runAccepts]
    · intro u v hu hv hnu hnv
      rcases h0 with h | h <;> subst h <;> simp [acceptStates] at hu hv
      exact absurd hu hnu
  | cons d ds =>
    have hd : d ≠ "pending" := hds d (List.mem_cons_self d ds)
    have hstep : tryAcceptRide d s0 = (true, some d) := tryAcceptRide_open d h0
    constructor
    · show (runAccepts (d :: ds) s0).1.count true ≤ 1
      simp [runAccepts, hstep, runAccepts_closed ds hd, List.count_replicate]
    · intro u v hu hv hnu hnv
      have hstates : acceptStates (d :: ds) s0
          = s0 :: List.replicate (ds.length + 1) (some d) := by
        simp [acceptStates, hstep, acceptStates_closed ds hd]
      rw [hstates] at hu hv
      have hu' : u = d := by
        rcases List.mem_cons.mp hu with h | h
        · rcases h0 with h0 | h0 <;> subst h0
          · exact absurd h (by simp)
          · exact absurd (Option.some_injective _ h) hnu
        · exact Option.some_injective _ (List.eq_of_mem_replicate h)
      have hv' : v = d := by
        rcases List.mem_cons.mp hv with h | h
        · rcases h0 with h0 | h0 <;> subst h0
          · exact absurd h (by simp)
          · exact absurd (Option.some_injective _ h) hnv
        · exact Option.some_injective _ (List.eq_of_mem_replicate h)
      rw [hu', hv']

/-- C1 witness: the amended single-winner theorem at a concrete run of two
ordinary drivers against a pending request. -/
theorem C1_witness :
    (runAccepts ["alice", "bob"] (some "pending")).1.count true ≤ 1 ∧
    ∀ u v : String,
      some u ∈ acceptStates ["alice", "bob"] (some "pending") →
      some v ∈ acceptStates ["alice", "bob"] (some "pending") →
      u ≠ "pending" → v ≠ "pending" → u = v :=
  C1_single_winner_amended ["alice", "bob"] (some "pending") (by decide)
    (Or.inr rfl)

/-- C9: an accept attempt against an absent status record (never created, or
expired after the 5 minute TTL of setRidePending) returns won and records
the driver id as the status, instead of failing. -/
theorem C9_absent_request_accept (d : String) :
    tryAcceptRide d none = (true, some d) := rfl

/-! ## Claim C5 (radius sequences) -/

theorem le_of_mem_searchRadii {step maxR : Nat} :
    ∀ {fuel r x : Nat}, x ∈ searchRadii step maxR fuel r → r ≤ x := by
  intro fuel
  induction fuel with
  | zero => intro r x hx; simp [searchRadii] at hx
  | succ n ih =>
    intro r x hx
    by_cases hr : r ≤ maxR
    · simp [searchRadii, hr] at hx
      rcases hx with hx | hx
      · omega
      · have h2 := ih hx
        by_cases hlt : r < maxR
        · simp [hlt] at h2; omega
        · simp [hlt] at h2; omega
    · simp [searchRadii, hr] at hx

theorem mem_searchRadii_le {step maxR : Nat} :
    ∀ {fuel r x : Nat}, x ∈ searchRadii step maxR fuel r → x ≤ maxR := by
  intro fuel
  induction fuel with
  | zero => intro r x hx; simp [searchRadii] at hx
  | succ n ih =>
    intro r x hx
    by_cases hr : r ≤ maxR
    · simp [searchRadii, hr] at hx
      rcases hx with hx | hx
      · omega
      · exact ih hx
    · simp [searchRadii, hr] at hx

theorem chain_searchRadii (step maxR : Nat) :
    ∀ fuel r, List.Chain' (· ≤ ·) (searchRadii step maxR fuel r) := by
  intro fuel
  induction fuel with
  | zero => intro r; simp [searchRadii]
  | succ n ih =>
    intro r
    by_cases hr : r ≤ maxR
    · simp only [searchRadii, hr, if_true]
      refine List.chain'_cons'.mpr ⟨?_, ih _⟩
      intro z hz
      have hmem : z ∈ searchRadii step maxR n (if r < maxR then min (r + step) maxR else r) :=
        List.mem_of_mem_head? hz
      have h2 := le_of_mem_searchRadii hmem
      by_cases hlt : r < maxR
      · simp [hlt] at h2; omega
      · simp [hlt] at h2; omega
    · simp [searchRadii, hr]

theorem le_of_mem_socketsRadii {inc maxR : Nat} :
    ∀ {fuel r x : Nat}, x ∈ socketsRadii inc maxR fuel r → r ≤ x := by
  intro fuel
  induction fuel with
  | zero => intro r x hx; simp [socketsRadii] at hx
  | succ n ih =>
    intro r x hx
    by_cases hr : maxR ≤ r
    · simp [socketsRadii, hr] at hx; omega
    · simp [socketsRadii, hr] at hx
      rcases hx with hx | hx
      · omega
      · have := ih hx; omega

theorem chain_socketsRadii (inc maxR : Nat) :
    ∀ fuel r, List.Chain' (· ≤ ·) (socketsRadii inc maxR fuel r) := by
  intro fuel
  induction fuel with
  | zero => intro r; simp [socketsRadii]
  | succ n ih =>
    intro r
    by_cases hr : maxR ≤ r
    · simp [socketsRadii, hr]
    · simp only [socketsRadii, hr, if_false]
      refine List.chain'_cons'.mpr ⟨?_, ih _⟩
      intro z hz
      have := le_of_mem_socketsRadii (List.mem_of_mem_head? hz)
      omega

/-- C5 counterexample: with the shipped constants (initial radius 5,
increment 3, maximum 15) the socket-layer timer loop broadcasts at radius
17, which exceeds MAX_RADIUS. -/
theorem C5_counterexample :
    17 ∈ socketsRadii SEARCH_RADIUS_INCREMENT MAX_RADIUS 6 SEARCH_INITIAL_RADIUS ∧
    ¬ (17 ≤ MAX_RADIUS) := by
  decide

/-- C5 (amended): radius sequences are non-decreasing in both
implementations, and every radius attempted by the rideService expansion
loop is at most maxRadius; the socket-layer timer loop has no such cap. -/
theorem C5_radius_monotone_amended (step maxR fuel r0 inc fuel2 r1 : Nat) :
    List.Chain' (· ≤ ·) (searchRadii step maxR fuel r0) ∧
    (∀ x ∈ searchRadii step maxR fuel r0, x ≤ maxR) ∧
    List.Chain' (· ≤ ·) (socketsRadii inc maxR fuel2 r1) :=
  ⟨chain_searchRadii step maxR fuel r0,
   fun _ hx => mem_searchRadii_le hx,
   chain_socketsRadii inc maxR fuel2 r1⟩

/-! ## Claims C2, C3, C4: counterexamples -/

/-- C2 counterexample: in the socket layer, driver dave already holds the
active-ride binding for r1 (and is the recorded acceptor of r1), yet his
accept of the pending ride r2 succeeds and rebinds him, leaving dave the
acceptor of two rides simultaneously, instead of failing with a
driver-busy error. -/
theorem C2_counterexample :
    sockBusy.driverActiveRide "dave" = some "r1" ∧
    sockBusy.rideStatus "r1" = some "dave" ∧
    (driverAcceptRide sockBusy "dave" "r2").1 = true ∧
    (driverAcceptRide sockBusy "dave" "r2").2.driverActiveRide "dave" = some "r2" ∧
    (driverAcceptRide sockBusy "dave" "r2").2.rideStatus "r1" = some "dave" ∧
    (driverAcceptRide sockBusy "dave" "r2").2.rideStatus "r2" = some "dave" := by
  decide

/-- C3 counterexample: cancelRide overwrites the status of a request that
already reached the terminal status accepted, turning it into cancelled. -/
theorem C3_counterexample :
    (rsBusy.rideRequests "r1").map RideRequest.status = some RideStatus.accepted ∧
    ((cancelRide rsBusy "r1").2.rideRequests "r1").map RideRequest.status
      = some RideStatus.cancelled := by
  decide

/-- C4 counterexample: after a rider cancellation in the socket layer the
status key still holds "pending", so a subsequent accept attempt wins
instead of returning a request-closed loss. -/
theorem C4_counterexample :
    (riderCancelRide (createRideRequest emptySock "r1") "r1").rideStatus "r1"
      = some "pending" ∧
    (driverAcceptRide (riderCancelRide (createRideRequest emptySock "r1") "r1")
      "d7" "r1").1 = true := by
  decide

/-! ## Claims C2, C3, C4: the rideService side -/

theorem getDriverActiveRide_busy {s : RSState} {d r : String}
    (h : (getDriverActiveRide s d).1 = some r) :
    getDriverActiveRide s d = (some r, s) := by
  cases hd : s.driverActiveRides d with
  | none => simp [getDriverActiveRide, hd] at h
  | some rid =>
    cases hr : s.rideRequests rid with
    | none => simp [getDriverActiveRide, hd, hr] at h
    | some ride =>
      by_cases hc : ride.status = RideStatus.accepted ∧ ride.acceptedBy = some d
      · have hval : getDriverActiveRide s d = (some rid, s) := by
          simp [getDriverActiveRide, hd, hr, hc]
        rw [hval] at h ⊢
        simp at h
        rw [h]
      · simp [getDriverActiveRide, hd, hr, hc] at h

theorem gdar_rideRequests (s : RSState) (d : String) :
    ((getDriverActiveRide s d).2).rideRequests = s.rideRequests := by
  unfold getDriverActiveRide
  split
  · rfl
  · split
    · rfl
    · split <;> rfl

theorem isTerminal_iff (st : RideStatus) :
    isTerminal st = true ↔ st ≠ RideStatus.searching := by
  cases st <;> simp [isTerminal]

theorem core_preserves_terminal (s : RSState) (requestId driverId : String)
    (b : Bool) (t : Nat) (ride : RideRequest)
    (hreq : s.rideRequests requestId = some ride)
    (hterm : ride.status ≠ RideStatus.searching) :
    (handleDriverResponseCore s requestId driverId b t).2 = s := by
  by_cases hacc : ride.status = RideStatus.accepted
  · simp [handleDriverResponseCore, hreq, hacc]
  · simp [handleDriverResponseCore, hreq, hacc, hterm]

theorem core_request_closed (s : RSState) (requestId driverId : String)
    (b : Bool) (t : Nat) (ride : RideRequest)
    (hreq : s.rideRequests requestId = some ride)
    (hnacc : ride.status ≠ RideStatus.accepted)
    (hns : ride.status ≠ RideStatus.searching) :
    handleDriverResponseCore s requestId driverId b t
      = (RespStatus.request_closed, s) := by
  simp [handleDriverResponseCore, hreq, hnacc, hns]

/-- C2 (amended): in handleDriverResponse an accept from a driver who
already holds a valid active-ride binding fails with driver_busy and leaves
the state untouched, so the ride service never books a busy driver; the
socket-layer driver:acceptRide handler performs no such check (see the
counterexample). -/
theorem C2_accept_requires_free_driver (s : RSState) (requestId driverId : String)
    (t : Nat) (h : (getDriverActiveRide s driverId).1.isSome) :
    handleDriverResponse s requestId driverId true t
      = (RespStatus.driver_busy, s) := by
  obtain ⟨r, hr⟩ := Option.isSome_iff_exists.mp h
  have hb := getDriverActiveRide_busy hr
  simp [handleDriverResponse, hb]

/-- C2 witness: the busy-driver rejection at a concrete state in which dave
is validly bound to ride r1 and tries to accept r9. -/
theorem C2_witness :
    handleDriverResponse rsBusy "r9" "dave" true 5
      = (RespStatus.driver_busy, rsBusy) :=
  C2_accept_requires_free_driver rsBusy "r9" "dave" 5 (by decide)

/-- C3 (amended): accept, reject and timeout all leave a request whose
status is terminal untouched; cancelRide, however, overwrites the status of
any stored request, terminal or not, with cancelled (see the
counterexample). -/
theorem C3_terminal_absorption_amended (s : RSState) (requestId driverId : String)
    (isAccept : Bool) (t : Nat) (ride : RideRequest)
    (hreq : s.rideRequests requestId = some ride)
    (hterm : isTerminal ride.status = true) :
    (handleDriverResponse s requestId driverId isAccept t).2.rideRequests requestId
      = some ride ∧
    (handleRideTimeout s requestId).rideRequests requestId = some ride := by
  have hns : ride.status ≠ RideStatus.searching := (isTerminal_iff _).mp hterm
  constructor
  · cases isAccept with
    | false =>
      have := core_preserves_terminal s requestId driverId false t ride hreq hns
      simp [handleDriverResponse, this, hreq]
    | true =>
      rcases hg : getDriverActiveRide s driverId with ⟨o, s1⟩
      have h2 : s1.rideRequests = s.rideRequests := by
        have h3 := gdar_rideRequests s driverId
        rw [hg] at h3
        exact h3
      have hreq1 : s1.rideRequests requestId = some ride := by
        rw [h2]; exact hreq
      cases o with
      | some rid =>
        simp [handleDriverResponse, hg, hreq1]
      | none =>
        have := core_preserves_terminal s1 requestId driverId true t ride hreq1 hns
        simp [handleDriverResponse, hg, this, hreq1]
  · simp [handleRideTimeout, hreq, hns]

/-- C3 witness: the amended terminal-preservation theorem at a concrete
state holding a cancelled request. -/
theorem C3_witness :
    (handleDriverResponse rsBusy "r9" "erin" true 7).2.rideRequests "r9"
      = some rideR2 ∧
    (handleRideTimeout rsBusy "r9").rideRequests "r9" = some rideR2 :=
  C3_terminal_absorption_amended rsBusy "r9" "erin" true 7 rideR2 (by decide)
    (by decide)

/-- C4 (amended): in the ride service, an accept by a free driver against a
request whose status is terminal but not accepted returns request_closed
and does not change the stored request; the socket-layer cancellation never
closes the status key, so there a subsequent accept wins (see the
counterexample). A busy driver is turned away earlier with driver_busy. -/
theorem C4_accept_after_close_amended (s : RSState) (requestId driverId : String)
    (t : Nat) (ride : RideRequest)
    (hreq : s.rideRequests requestId = some ride)
    (hterm : isTerminal ride.status = true)
    (hnacc : ride.status ≠ RideStatus.accepted)
    (hfree : (getDriverActiveRide s driverId).1 = none) :
    (handleDriverResponse s requestId driverId true t).1
      = RespStatus.request_closed ∧
    (handleDriverResponse s requestId driverId true t).2.rideRequests requestId
      = some ride := by
  have hns : ride.status ≠ RideStatus.searching := (isTerminal_iff _).mp hterm
  rcases hg : getDriverActiveRide s driverId with ⟨o, s1⟩
  have ho : o = none := by rw [hg] at hfree; exact hfree
  subst ho
  have h2 : s1.rideRequests = s.rideRequests := by
    have h3 := gdar_rideRequests s driverId
    rw [hg] at h3
    exact h3
  have hreq1 : s1.rideRequests requestId = some ride := by
    rw [h2]; exact hreq
  have hcore := core_request_closed s1 requestId driverId true t ride hreq1 hnacc hns
  constructor
  · simp [handleDriverResponse, hg, hcore]
  · simp [handleDriverResponse, hg, hcore, hreq1]

/-- C4 witness: the request-closed loss at a concrete state holding a
request cancelled by its rider and a free driver erin. -/
theorem C4_witness :
    (handleDriverResponse rsBusy "r9" "erin" true 9).1
      = RespStatus.request_closed ∧
    (handleDriverResponse rsBusy "r9" "erin" true 9).2.rideRequests "r9"
      = some rideR2 :=
  C4_accept_after_close_amended rsBusy "r9" "erin" 9 rideR2 (by decide)
    (by decide) (by decide) (by decide)

/-! ## Claim C8 (idempotent reject) -/

theorem upsert_twice_proj (l : List (String × RespEntry)) (d : String)
    (e1 e2 : RespEntry) (h : e1.response = e2.response) :
    (upsertResponse (upsertResponse l d e1) d e2).map (fun p => (p.1, p.2.response))
      = (upsertResponse l d e1).map (fun p => (p.1, p.2.response)) := by
  induction l with
  | nil => simp [upsertResponse, h]
  | cons kv rest ih =>
    obtain ⟨k, v⟩ := kv
    by_cases hk : k = d
    · subst hk
      simp [upsertResponse, h]
    · simp [upsertResponse, hk, ih]

theorem upsert_twice_length (l : List (String × RespEntry)) (d : String)
    (e1 e2 : RespEntry) (h : e1.response = e2.response) :
    (upsertResponse (upsertResponse l d e1) d e2).length
      = (upsertResponse l d e1).length := by
  have h1 := congrArg List.length (upsert_twice_proj l d e1 e2 h)
  simpa using h1

theorem upsert_twice_accept_count (l : List (String × RespEntry)) (d : String)
    (e1 e2 : RespEntry) (h : e1.response = e2.response) :
    ((upsertResponse (upsertResponse l d e1) d e2).filter
        (fun p => p.2.response == "accept")).length
      = ((upsertResponse l d e1).filter
        (fun p => p.2.response == "accept")).length := by
  have h1 := congrArg (List.countP (fun pr : String × String => pr.2 == "accept"))
    (upsert_twice_proj l d e1 e2 h)
  rw [List.countP_map, List.countP_map] at h1
  rw [← List.countP_eq_length_filter, ← List.countP_eq_length_filter]
  exact h1

theorem core_reject_searching (s : RSState) (rid d : String) (t : Nat)
    (ride : RideRequest) (hr : s.rideRequests rid = some ride)
    (hsearch : ride.status = RideStatus.searching) :
    (handleDriverResponseCore s rid d false t).2.rideRequests rid
      = some (
        if (upsertResponse ride.responses d
               { response := "reject", timestamp := t }).length
              ≥ ride.notifiedDrivers.length ∧
            ((upsertResponse ride.responses d
               { response := "reject", timestamp := t }).filter
              (fun p => p.2.response == "accept")).length = 0
        then { ride with
               status := RideStatus.all_rejected,
               responses := upsertResponse ride.responses d
                 { response := "reject", timestamp := t },
               version := ride.version + 1 + 1 }
        else { ride with
               responses := upsertResponse ride.responses d
                 { response := "reject", timestamp := t },
               version := ride.version + 1 }) := by
  have hacc : ride.status ≠ RideStatus.accepted := by simp [hsearch]
  by_cases hcond :
      (upsertResponse ride.responses d
          { response := "reject", timestamp := t }).length
        ≥ ride.notifiedDrivers.length ∧
      ((upsertResponse ride.responses d
          { response := "reject", timestamp := t }).filter
        (fun p => p.2.response == "accept")).length = 0
  · simp [handleDriverResponseCore, hr, hacc, hsearch, hcond]
  · simp [handleDriverResponseCore, hr, hacc, hsearch]
    rw [if_neg hcond, if_neg hcond]
    simp

/-- C8: processing a second reject from the same driver leaves the request
in the same observable state (status, responses map projected to response
values, and the all_rejected decision) as processing it once. -/
theorem C8_idempotent_reject (s : RSState) (requestId driverId : String)
    (t1 t2 : Nat) :
    observable (handleDriverResponse
        (handleDriverResponse s requestId driverId false t1).2
        requestId driverId false t2).2 requestId
      = observable (handleDriverResponse s requestId driverId false t1).2
          requestId := by
  have hfalse : ∀ (s1 : RSState) (t : Nat),
      handleDriverResponse s1 requestId driverId false t
        = handleDriverResponseCore s1 requestId driverId false t := fun _ _ => rfl
  simp only [hfalse]
  rcases hr : s.rideRequests requestId with _ | ride
  · simp [handleDriverResponseCore, hr]
  · by_cases hacc : ride.status = RideStatus.accepted
    · simp [handleDriverResponseCore, hr, hacc]
    · by_cases hsearch : ride.status = RideStatus.searching
      · have hentry := core_reject_searching s requestId driverId t1 ride hr hsearch
        by_cases hcond :
            (upsertResponse ride.responses driverId
                { response := "reject", timestamp := t1 }).length
              ≥ ride.notifiedDrivers.length ∧
            ((upsertResponse ride.responses driverId
                { response := "reject", timestamp := t1 }).filter
              (fun p => p.2.response == "accept")).length = 0
        · rw [if_pos hcond] at hentry
          have h2 := core_preserves_terminal
            (handleDriverResponseCore s requestId driverId false t1).2
            requestId driverId false t2 _ hentry (by simp)
          rw [h2]
        · rw [if_neg hcond] at hentry
          have hentry2 := core_reject_searching
            (handleDriverResponseCore s requestId driverId false t1).2
            requestId driverId t2 _ hentry (by simp [hsearch])
          simp only at hentry2
          have hcond2 : ¬ (
              (upsertResponse (upsertResponse ride.responses driverId
                  { response := "reject", timestamp := t1 }) driverId
                  { response := "reject", timestamp := t2 }).length
                ≥ ride.notifiedDrivers.length ∧
              ((upsertResponse (upsertResponse ride.responses driverId
                  { response := "reject", timestamp := t1 }) driverId
                  { response := "reject", timestamp := t2 }).filter
                (fun p => p.2.response == "accept")).length = 0) := by
            rw [upsert_twice_length ride.responses driverId
                  { response := "reject", timestamp := t1 }
                  { response := "reject", timestamp := t2 } rfl,
                upsert_twice_accept_count ride.responses driverId
                  { response := "reject", timestamp := t1 }
                  { response := "reject", timestamp := t2 } rfl]
            exact hcond
          rw [if_neg hcond2] at hentry2
          simp [observable, hentry, hentry2,
            upsert_twice_proj ride.responses driverId
              { response := "reject", timestamp := t1 }
              { response := "reject", timestamp := t2 } rfl]
      · simp [handleDriverResponseCore, hr, hacc, hsearch]

/-! ## Claim C6 (monotone notified sets, no re-notification) -/

theorem subset_setAdd (l : List String) (d : String) : l ⊆ setAdd l d := by
  intro x hx
  unfold setAdd
  split
  · exact hx
  · exact List.mem_append_left _ hx

theorem mem_setAdd_self (l : List String) (d : String) : d ∈ setAdd l d := by
  unfold setAdd
  split
  · assumption
  · simp

theorem setAddAll_cons (l : List String) (d : String) (ds : List String) :
    setAddAll l (d :: ds) = setAddAll (setAdd l d) ds := rfl

theorem subset_setAddAll (l ds : List String) : l ⊆ setAddAll l ds := by
  induction ds generalizing l with
  | nil => exact fun x hx => hx
  | cons d ds ih =>
    intro x hx
    rw [setAddAll_cons]
    exact ih (setAdd l d) (subset_setAdd l d hx)

theorem broadcastRideStep_found_subset (inp : BroadcastIn) (bs : BroadcastState) :
    bs.foundDrivers ⊆ (broadcastRideStep inp bs).2.foundDrivers := by
  by_cases h : inp.nearby.isEmpty
  · unfold broadcastRideStep
    rw [if_pos h]
    exact fun x hx => hx
  · unfold broadcastRideStep
    rw [if_neg h]
    exact subset_setAddAll _ _

theorem broadcastRideStep_set_subset (inp : BroadcastIn) (bs : BroadcastState) :
    bs.currentSet ⊆ (broadcastRideStep inp bs).2.currentSet := by
  by_cases h : inp.nearby.isEmpty
  · unfold broadcastRideStep
    rw [if_pos h]
    exact fun x hx => hx
  · unfold broadcastRideStep
    rw [if_neg h]
    exact subset_setAddAll _ _

theorem emitted_not_found {inp : BroadcastIn} {bs : BroadcastState} {d : String}
    (h : d ∈ (broadcastRideStep inp bs).1) : d ∉ bs.foundDrivers := by
  unfold broadcastRideStep at h
  by_cases he : inp.nearby.isEmpty
  · rw [if_pos he] at h
    simp at h
  · rw [if_neg he] at h
    have h2 := List.mem_of_mem_filter h
    have h3 := (List.mem_filter.mp h2).2
    simpa using h3

theorem mem_setAddAll_right (d : String) :
    ∀ (ds l : List String), d ∈ ds → d ∈ setAddAll l ds := by
  intro ds
  induction ds with
  | nil => intro l h; simp at h
  | cons e ds ih =>
    intro l h
    rw [setAddAll_cons]
    rcases List.mem_cons.mp h with h | h
    · subst h
      exact subset_setAddAll (setAdd l d) ds (mem_setAdd_self l d)
    · exact ih (setAdd l e) h

theorem emitted_mem_found {inp : BroadcastIn} {bs : BroadcastState} {d : String}
    (h : d ∈ (broadcastRideStep inp bs).1) :
    d ∈ (broadcastRideStep inp bs).2.foundDrivers := by
  unfold broadcastRideStep at h ⊢
  by_cases he : inp.nearby.isEmpty
  · rw [if_pos he] at h
    simp at h
  · rw [if_neg he] at h ⊢
    exact mem_setAddAll_right d _ _ (List.mem_of_mem_filter h)

theorem emitted_nodup {inp : BroadcastIn} (bs : BroadcastState)
    (h : inp.nearby.Nodup) : ((broadcastRideStep inp bs).1).Nodup := by
  unfold broadcastRideStep
  by_cases he : inp.nearby.isEmpty
  · rw [if_pos he]
    exact List.nodup_nil
  · rw [if_neg he]
    exact ((h.filter _).filter _).filter _

theorem broadcastStates_head (is : List BroadcastIn) (bs : BroadcastState) :
    (broadcastStates is bs).head? = some bs := by
  cases is <;> rfl

theorem runBroadcasts_invariant (inputs : List BroadcastIn) :
    ∀ bs : BroadcastState, (∀ i ∈ inputs, i.nearby.Nodup) →
    List.Chain' (fun a b => a.foundDrivers ⊆ b.foundDrivers ∧
        a.currentSet ⊆ b.currentSet) (broadcastStates inputs bs) ∧
    ((runBroadcasts inputs bs).1.flatten.Nodup) ∧
    (∀ d ∈ (runBroadcasts inputs bs).1.flatten, d ∉ bs.foundDrivers) := by
  induction inputs with
  | nil =>
    intro bs h
    exact ⟨by simp [broadcastStates], by simp [runBroadcasts], by simp [runBroadcasts]⟩
  | cons i is ih =>
    intro bs h
    have hni : i.nearby.Nodup := h i (List.mem_cons_self i is)
    have hrest := ih (broadcastRideStep i bs).2
      (fun j hj => h j (List.mem_cons_of_mem _ hj))
    have hjoin : (runBroadcasts (i :: is) bs).1.flatten
        = (broadcastRideStep i bs).1
          ++ (runBroadcasts is (broadcastRideStep i bs).2).1.flatten := by
      simp [runBroadcasts]
    refine ⟨?_, ?_, ?_⟩
    · show List.Chain' _ (bs :: broadcastStates is (broadcastRideStep i bs).2)
      refine List.chain'_cons'.mpr ⟨?_, hrest.1⟩
      intro z hz
      rw [broadcastStates_head] at hz
      obtain rfl : (broadcastRideStep i bs).2 = z := by simpa using hz
      exact ⟨broadcastRideStep_found_subset i bs, broadcastRideStep_set_subset i bs⟩
    · rw [hjoin]
      refine (emitted_nodup bs hni).append hrest.2.1 ?_
      intro d hd hd2
      exact hrest.2.2 d hd2 (emitted_mem_found hd)
    · intro d hd
      rw [hjoin] at hd
      rcases List.mem_append.mp hd with hd | hd
      · exact emitted_not_found hd
      · intro hmem
        exact hrest.2.2 d hd (broadcastRideStep_found_subset i bs hmem)

/-- C6: over any sequence of broadcastRide calls for one request (each with
a duplicate-free geo reply), the foundDrivers and broadcast sets only ever
grow, no driver is ever sent the offer twice, and the rideService
broadcastToFoundDrivers call only extends the (initially empty)
notifiedDrivers list of a freshly created request. -/
theorem C6_no_renotification (inputs : List BroadcastIn)
    (h : ∀ i ∈ inputs, i.nearby.Nodup)
    (ride : RideRequest) (ids : List String)
    (hinit : ride.notifiedDrivers = []) :
    List.Chain' (fun a b => a.foundDrivers ⊆ b.foundDrivers ∧
        a.currentSet ⊆ b.currentSet)
      (broadcastStates inputs { foundDrivers := [], currentSet := [] }) ∧
    ((runBroadcasts inputs { foundDrivers := [], currentSet := [] }).1.flatten.Nodup) ∧
    ride.notifiedDrivers ⊆ (broadcastToFoundDrivers ride ids).notifiedDrivers := by
  have hinv := runBroadcasts_invariant inputs { foundDrivers := [], currentSet := [] } h
  exact ⟨hinv.1, hinv.2.1, by rw [hinit]; exact List.nil_subset _⟩

/-- C6 witness: two broadcast rounds, the second round geo reply containing
both already-notified drivers and one new driver. -/
theorem C6_witness :
    List.Chain' (fun a b => a.foundDrivers ⊆ b.foundDrivers ∧
        a.currentSet ⊆ b.currentSet)
      (broadcastStates
        [{ nearby := ["a", "b"], busy := fun _ => false, connected := fun _ => true },
         { nearby := ["a", "b", "c"], busy := fun _ => false, connected := fun _ => true }]
        { foundDrivers := [], currentSet := [] }) ∧
    ((runBroadcasts
        [{ nearby := ["a", "b"], busy := fun _ => false, connected := fun _ => true },
         { nearby := ["a", "b", "c"], busy := fun _ => false, connected := fun _ => true }]
        { foundDrivers := [], currentSet := [] }).1.flatten.Nodup) ∧
    ({ userId := "u3", status := RideStatus.searching, radius := 3,
       notifiedDrivers := [], responses := [], acceptedBy := none,
       version := 1 } : RideRequest).notifiedDrivers ⊆
      (broadcastToFoundDrivers
        { userId := "u3", status := RideStatus.searching, radius := 3,
          notifiedDrivers := [], responses := [], acceptedBy := none,
          version := 1 } ["a", "b"]).notifiedDrivers :=
  C6_no_renotification _ (by decide) _ ["a", "b"] rfl

/-! ## Claim C7 (eligible candidate query) -/

theorem cmpDrivers_antisymm (a b : Candidate) :
    cmpDrivers b a = - cmpDrivers a b := by
  unfold cmpDrivers
  rw [abs_sub_comm b.distance a.distance]
  by_cases h : |a.distance - b.distance| < 1 / 2
  · rw [if_pos h, if_pos h]; ring
  · rw [if_neg h, if_neg h]; ring

theorem cmpDrivers_total (a b : Candidate) :
    cmpDrivers a b ≤ 0 ∨ cmpDrivers b a ≤ 0 := by
  rcases le_total (cmpDrivers a b) 0 with h | h
  · exact Or.inl h
  · right
    rw [cmpDrivers_antisymm]
    linarith

theorem insertByCmp_head (x : Candidate) (l : List Candidate) :
    (insertByCmp x l).head? = some x ∨ (insertByCmp x l).head? = l.head? := by
  cases l with
  | nil => left; rfl
  | cons y ys =>
    unfold insertByCmp
    by_cases h : cmpDrivers x y ≤ 0
    · left; rw [if_pos h]; rfl
    · right; rw [if_neg h]; rfl

theorem chain_insertByCmp (x : Candidate) (l : List Candidate)
    (hl : List.Chain' (fun a b => cmpDrivers a b ≤ 0) l) :
    List.Chain' (fun a b => cmpDrivers a b ≤ 0) (insertByCmp x l) := by
  induction l with
  | nil => simp [insertByCmp]
  | cons y ys ih =>
    unfold insertByCmp
    by_cases h : cmpDrivers x y ≤ 0
    · rw [if_pos h]
      exact hl.cons h
    · rw [if_neg h]
      have hyx : cmpDrivers y x ≤ 0 := (cmpDrivers_total x y).resolve_left h
      have hparts := List.chain'_cons'.mp hl
      refine List.chain'_cons'.mpr ⟨?_, ih hparts.2⟩
      intro z hz
      rcases insertByCmp_head x ys with hh | hh
      · rw [hh] at hz
        obtain rfl : x = z := by simpa using hz
        exact hyx
      · rw [hh] at hz
        exact hparts.1 z hz

theorem chain_sortByCmp (l : List Candidate) :
    List.Chain' (fun a b => cmpDrivers a b ≤ 0) (sortByCmp l) := by
  induction l with
  | nil => simp [sortByCmp]
  | cons x xs ih => exact chain_insertByCmp x (sortByCmp xs) ih

theorem mem_insertByCmp {a x : Candidate} {l : List Candidate} :
    a ∈ insertByCmp x l ↔ a = x ∨ a ∈ l := by
  induction l with
  | nil => simp [insertByCmp]
  | cons y ys ih =>
    unfold insertByCmp
    by_cases h : cmpDrivers x y ≤ 0
    · rw [if_pos h]
      simp [List.mem_cons]
    · rw [if_neg h]
      simp only [List.mem_cons, ih]
      tauto

theorem mem_sortByCmp {a : Candidate} {l : List Candidate} :
    a ∈ sortByCmp l ↔ a ∈ l := by
  induction l with
  | nil => simp [sortByCmp]
  | cons x xs ih => simp [sortByCmp, mem_insertByCmp, ih]

theorem vehicleMismatch_false {vt : Option String} {dvt : String}
    (h : vehicleMismatch vt dvt = false) :
    ∀ v, vt = some v → v ≠ "any" → dvt = v := by
  intro v hv hany
  subst hv
  simp [vehicleMismatch, hany] at h
  exact h

theorem eligibleCandidate_spec {driverData : String → Option DriverData}
    {vt : Option String} {e : GeoEntry} {c : Candidate}
    (h : eligibleCandidate driverData vt e = some c) :
    ∃ data, driverData e.driverId = some data ∧ data.status = "available" ∧
      vehicleMismatch vt data.vehicleType = false ∧
      c = { driverId := e.driverId, distance := e.distance, latitude := e.lat,
            longitude := e.lng, vehicleType := data.vehicleType,
            rating := data.rating } := by
  cases hd : driverData e.driverId with
  | none => simp [eligibleCandidate, hd] at h
  | some data =>
    simp only [eligibleCandidate, hd] at h
    by_cases hm : vehicleMismatch vt data.vehicleType
    · rw [if_pos hm] at h; simp at h
    · rw [if_neg hm] at h
      by_cases hs : data.status ≠ "available"
      · rw [if_pos hs] at h; simp at h
      · rw [if_neg hs] at h
        refine ⟨data, rfl, not_not.mp hs, by simpa using hm, ?_⟩
        exact (Option.some_injective _ h).symm

theorem cmpDrivers_nonpos_cases {a b : Candidate} (h : cmpDrivers a b ≤ 0) :
    a.distance ≤ b.distance ∨
      (|a.distance - b.distance| < 1 / 2 ∧ b.rating ≤ a.rating) := by
  unfold cmpDrivers at h
  by_cases hc : |a.distance - b.distance| < 1 / 2
  · rw [if_pos hc] at h
    exact Or.inr ⟨hc, by linarith⟩
  · rw [if_neg hc] at h
    exact Or.inl (by linarith)

/-- C7 counterexample: with a 0.6 km driver rated 4 and a 1.0 km driver
rated 5 (both available cars), the comparator prefers the higher rating
because the distances differ by less than 0.5 km, so the returned list has
distances [1, 0.6] and is not ascending by distance. -/
theorem C7_counterexample :
    (findNearbyDrivers [entryNear, entryFar] twoCarsData (some "car")).map
        Candidate.distance = [1, 3 / 5] ∧
    ¬ ((1 : ℚ) ≤ 3 / 5) := by
  constructor
  · norm_num [findNearbyDrivers, eligibleCandidate, twoCarsData, entryNear,
      entryFar, vehicleMismatch, upd, sortByCmp, insertByCmp, cmpDrivers,
      abs_sub_lt_iff]
    rw [show |(2 : ℚ) / 5| = 2 / 5 from abs_of_pos (by norm_num)]
    norm_num
  · norm_num

/-- C7 (amended): every returned candidate is an available driver matching a
non-any vehicle filter, and adjacent candidates are either ascending by
distance or within 0.5 km of each other with the higher rating first. -/
theorem C7_eligible_query_amended (results : List GeoEntry)
    (driverData : String → Option DriverData) (vt : Option String) :
    (∀ c ∈ findNearbyDrivers results driverData vt,
        ∃ data, driverData c.driverId = some data ∧ data.status = "available" ∧
          c.vehicleType = data.vehicleType ∧
          ∀ v, vt = some v → v ≠ "any" → c.vehicleType = v) ∧
    List.Chain' (fun a b => a.distance ≤ b.distance ∨
        (|a.distance - b.distance| < 1 / 2 ∧ b.rating ≤ a.rating))
      (findNearbyDrivers results driverData vt) := by
  constructor
  · intro c hc
    have hc2 : c ∈ results.filterMap (eligibleCandidate driverData vt) :=
      mem_sortByCmp.mp hc
    obtain ⟨e, _, heq⟩ := List.mem_filterMap.mp hc2
    obtain ⟨data, hd, hs, hm, hceq⟩ := eligibleCandidate_spec heq
    subst hceq
    exact ⟨data, hd, hs, rfl, fun v hv hany => vehicleMismatch_false hm v hv hany⟩
  · exact List.Chain'.imp (fun a b hab => cmpDrivers_nonpos_cases hab)
      (chain_sortByCmp (results.filterMap (eligibleCandidate driverData vt)))

/-! ## Claim C10 (zero coordinates) -/

/-- C10: a latitude or longitude equal to 0 is falsy in the JavaScript
validations, so driver registration, driver location update and
find-nearby-drivers all answer the missing-required-fields error, whatever
the other fields hold. -/
theorem C10_zero_coordinate_rejected (driverId userId vehicleType : String)
    (lat lng : ℚ) (h : lat = 0 ∨ lng = 0) :
    handleDriverRegisterCheck driverId lat lng vehicleType
      = ValidationResult.missing_fields ∧
    handleDriverLocationUpdateCheck driverId lat lng
      = ValidationResult.missing_fields ∧
    handleFindNearbyDriversCheck userId lat lng
      = ValidationResult.missing_fields := by
  rcases h with h | h <;> subst h <;>
    simp [handleDriverRegisterCheck, handleDriverLocationUpdateCheck,
      handleFindNearbyDriversCheck, truthyNum]

/-- C10 witness: the zero-coordinate rejection at the concrete equator point
(latitude 0, longitude 77.209). -/
theorem C10_witness :
    handleDriverRegisterCheck "driver_001" 0 (77209 / 1000) "car"
      = ValidationResult.missing_fields ∧
    handleDriverLocationUpdateCheck "driver_001" 0 (77209 / 1000)
      = ValidationResult.missing_fields ∧
    handleFindNearbyDriversCheck "user_001" 0 (77209 / 1000)
      = ValidationResult.missing_fields :=
  C10_zero_coordinate_rejected "driver_001" "user_001" "car" 0 (77209 / 1000)
    (Or.inl rfl)

end RideShare
